import Mathlib

/-!
Verification development for the ffmpeg-demucs-vast-template repository.

The repository orchestrates ephemeral GPU instances on rental marketplaces
(Vast.ai in `vastai_client.py`, RunPod in `runpod_client.py`) to run a remote
audio-separation job, plus a batch capacity tester
(`test_concurrent_instances.py`) and the on-instance HTTP job server
(`server.py`).  Each Python function relevant to the frozen claims is embedded
below as an executable Lean definition; network calls, remote responses and the
wall clock are made explicit inputs (a finite list of poll results stands for
the bounded polling loop, the bound being the number of polls that fit inside
the timeout).
-/

namespace FfmpegDemucs

/-- Character-list version of Python lowercase: `s.lower()`. -/
def lowerChars (s : String) : List Char :=
  s.toList.map Char.toLower

/-- Predicate `startsW needle hay`: the needle is an initial segment of the haystack. -/
def startsW : List Char → List Char → Bool
  | [], _ => true
  | _ :: _, [] => false
  | a :: as, b :: bs => a == b && startsW as bs

/-- Predicate `hasSub needle hay`: Python `needle in hay` substring containment. -/
def hasSub (needle : List Char) : List Char → Bool
  | [] => needle.isEmpty
  | c :: rest => startsW needle (c :: rest) || hasSub needle rest

/-- Case-insensitive substring test: Python `needle.lower() in hay.lower()`. -/
def strContains (needle hay : String) : Bool :=
  hasSub (lowerChars needle) (lowerChars hay)

-- =============================================================================
-- RunPod client (`src/runpod_client.py`)
-- =============================================================================
namespace RunPod

/-- One entry of the GraphQL `gpuTypes` response consumed by
`RunPodClient.get_available_gpus`; `Option` fields model keys that may be
absent or `null` in the JSON. -/
structure RawGpu where
  id : String
  displayName : Option String
  memoryInGb : Option Int
  minimumBidPrice : Option ℚ
  uninterruptablePrice : Option ℚ
  secureCloud : Bool
  communityCloud : Bool
  deriving DecidableEq

/-- The parsed GPU dict built by `get_available_gpus`. -/
structure Gpu where
  id : String
  name : String
  vramGb : Int
  pricePerHour : ℚ
  secure : Bool
  community : Bool
  deriving DecidableEq

/-- Python `x or y` on an optional price, where `0` and `None` are falsy:
`price_info.get(k) or fallback`. -/
def pyOrPrice (o : Option ℚ) (fallback : ℚ) : ℚ :=
  match o with
  | some p => if p = 0 then fallback else p
  | none => fallback

/-- Computation `price = price_info.get("minimumBidPrice") or price_info.get("uninterruptablePrice") or 999`. -/
def rawPrice (g : RawGpu) : ℚ :=
  pyOrPrice g.minimumBidPrice (pyOrPrice g.uninterruptablePrice 999)

/-- Building one parsed GPU dict from a raw GraphQL entry. -/
def parseGpu (g : RawGpu) : Gpu :=
  { id := g.id
    name := g.displayName.getD g.id
    vramGb := g.memoryInGb.getD 0
    pricePerHour := rawPrice g
    secure := g.secureCloud
    community := g.communityCloud }

/-- Price comparison used by `available.sort(key=lambda x: x["price_per_hour"])`. -/
def priceLe (a b : Gpu) : Prop :=
  a.pricePerHour ≤ b.pricePerHour

instance : DecidableRel priceLe := fun a b =>
  inferInstanceAs (Decidable (a.pricePerHour ≤ b.pricePerHour))

instance : IsTotal Gpu priceLe :=
  ⟨fun a b => le_total a.pricePerHour b.pricePerHour⟩

instance : IsTrans Gpu priceLe :=
  ⟨fun _ _ _ hab hbc => le_trans hab hbc⟩

/-- Embedding of `RunPodClient.get_available_gpus`: keep GPUs with `memoryInGb >= MIN_VRAM_GB`
(8), parse them, and sort by price ascending. -/
def getAvailableGpus (raw : List RawGpu) : List Gpu :=
  List.insertionSort priceLe ((raw.filter (fun g => 8 ≤ g.memoryInGb.getD 0)).map parseGpu)

/-- The module-level `PREFERRED_GPUS` constant. -/
def PREFERRED_GPUS : List String :=
  ["NVIDIA RTX 3090", "NVIDIA RTX 4090", "NVIDIA RTX A4000", "NVIDIA RTX A5000",
   "NVIDIA A40", "NVIDIA RTX 3080", "NVIDIA RTX 4080"]

/-- Inner loop of phase 1 of `get_ranked_gpus`: the first GPU of `top` whose
name contains `pref` case-insensitively and whose id is not yet used. -/
def findPreferred (pref : String) (used : List String) : List Gpu → Option Gpu
  | [] => none
  | g :: rest =>
    if strContains pref g.name && !(used.contains g.id) then some g
    else findPreferred pref used rest

/-- Phase 1 of `get_ranked_gpus`: for each preferred model in order, pull the
first matching unclaimed GPU out of the cheapest ten, accumulating the pulled
GPUs and the used ids. -/
def pullPreferredLoop (top : List Gpu) : List String → List Gpu × List String → List Gpu × List String
  | [], acc => acc
  | pref :: prefs, (r, used) =>
    match findPreferred pref used top with
    | some g => pullPreferredLoop top prefs (r ++ [g], used ++ [g.id])
    | none => pullPreferredLoop top prefs (r, used)

/-- Phase 2 of `get_ranked_gpus`: append every GPU whose id is not yet used,
in the given (price) order, marking ids as used as it goes. -/
def appendUnused : List Gpu → List String → List Gpu
  | [], _ => []
  | g :: rest, used =>
    if used.contains g.id then appendUnused rest used
    else g :: appendUnused rest (g.id :: used)

/-- Embedding of `RunPodClient.get_ranked_gpus`: preferred GPUs pulled from the cheapest ten
first, then all remaining GPUs by price, truncated to `maxResults`. -/
def getRankedGpus (raw : List RawGpu) (maxResults : Nat) : List Gpu :=
  let gpus := getAvailableGpus raw
  if gpus.isEmpty then []
  else
    let pulled := pullPreferredLoop (gpus.take 10) PREFERRED_GPUS ([], [])
    (pulled.1 ++ appendUnused gpus pulled.2).take maxResults

end RunPod

-- =============================================================================
-- Vast.ai client (`src/vastai_client.py`)
-- =============================================================================
namespace Vast

/-- One parsed offer dict as produced by `VastAIClient.search_offers`. -/
structure VOffer where
  id : Int
  gpuName : String
  gpuRam : ℚ
  pricePerHour : ℚ
  reliability : ℚ
  deriving DecidableEq

/-- Price comparison used by `reliable.sort(key=lambda x: x["price_per_hour"])`. -/
def vPriceLe (a b : VOffer) : Prop :=
  a.pricePerHour ≤ b.pricePerHour

instance : DecidableRel vPriceLe := fun a b =>
  inferInstanceAs (Decidable (a.pricePerHour ≤ b.pricePerHour))

instance : IsTotal VOffer vPriceLe :=
  ⟨fun a b => le_total a.pricePerHour b.pricePerHour⟩

instance : IsTrans VOffer vPriceLe :=
  ⟨fun _ _ _ hab hbc => le_trans hab hbc⟩

/-- The reliability filter of `get_ranked_offers`:
`o.get("reliability", 0) >= 0.9`, the threshold being the rational 9/10. -/
def reliableEnough (o : VOffer) : Bool :=
  mkRat 9 10 ≤ o.reliability

/-- Embedding of `VastAIClient.get_ranked_offers`: empty search result short-circuits to an
empty list; otherwise filter by reliability at least 0.9, sort by price
ascending, and truncate to `maxResults`.  There is no preferred-GPU
reordering in this client. -/
def getRankedOffers (offers : List VOffer) (maxResults : Nat) : List VOffer :=
  if offers.isEmpty then []
  else (List.insertionSort vPriceLe (offers.filter reliableEnough)).take maxResults

end Vast

-- =============================================================================
-- Provisioning (`RunPodClient.try_create_pod`, the creation loops of both
-- `cmd_separate` functions)
-- =============================================================================
namespace RunPod

/-- The capacity classifier of `try_create_pod`:
`"resources" in str(e).lower() or "not have" in str(e).lower()`. -/
def isCapacityMsg (e : String) : Bool :=
  hasSub "resources".toList (lowerChars e) || hasSub "not have".toList (lowerChars e)

/-- Embedding of `RunPodClient.try_create_pod`: the argument is the outcome of `create_pod`
(pod id, or the raised error message).  A capacity-class error becomes `none`
(caller tries the next offer); any other error is re-raised. -/
def tryCreatePod (r : Except String String) : Except String (Option String) :=
  match r with
  | .ok pod => .ok (some pod)
  | .error e => if isCapacityMsg e then .ok none else .error e

/-- An offer outcome that `try_create_pod` swallows. -/
def isCapacityOutcome (r : Except String String) : Bool :=
  match r with
  | .ok _ => false
  | .error e => isCapacityMsg e

/-- The creation loop of `runpod_client.cmd_separate`: per ranked offer, the
outcome of `create_pod` for that offer; count attempts; the first success
short-circuits, a swallowed capacity error moves on, a re-raised error aborts,
and exhaustion yields no pod. -/
def provisionLoop : List (Except String String) → Nat → Nat × Except String (Option String)
  | [], n => (n, .ok none)
  | r :: rest, n =>
    match tryCreatePod r with
    | .ok (some pod) => (n + 1, .ok (some pod))
    | .ok none => provisionLoop rest (n + 1)
    | .error e => (n + 1, .error e)

end RunPod

namespace Vast

/-- The creation loop of `vastai_client.cmd_separate`: per ranked offer, the
outcome of `create_instance` (instance id, or the raised error message).
Every exception is caught and printed and the next offer is tried; the first
success short-circuits; exhaustion leaves `instance = None`. -/
def provisionLoop : List (Except String Int) → Nat → Nat × Option Int
  | [], n => (n, none)
  | .ok iid :: _, n => (n + 1, some iid)
  | .error _ :: rest, n => provisionLoop rest (n + 1)

end Vast

-- =============================================================================
-- Readiness probing (`VastAIClient.wait_for_instance_ready`,
-- `RunPodClient.wait_for_pod_ready`)
-- =============================================================================
namespace Vast

/-- What one `get_instance` poll (plus, when a URL gets formed, the health
probe issued during that poll) observes in `wait_for_instance_ready`:
the instance status, `public_ipaddr`, the entries of `ports["8185/tcp"]`
(each entry reduced to its `HostPort` value), and the HTTP status code of the
health probe (`none` when the request raised). -/
structure PollInst where
  status : String
  publicIpaddr : Option String
  apiPortInfo : Option (List (Option String))
  healthStatusCode : Option Nat
  deriving DecidableEq

/-- One iteration of the `wait_for_instance_ready` loop body: returns the API
URL when the instance is running, an IP and a mapped external port for
8185/tcp exist and are non-empty, and the health probe answered 200;
otherwise the loop keeps polling. -/
def checkPoll (p : PollInst) : Option String :=
  if p.status = "running" then
    match p.publicIpaddr, p.apiPortInfo with
    | some ip, some (some port :: _) =>
      if ip = "" then none
      else if port = "" then none
      else if p.healthStatusCode = some 200 then some ("http://" ++ ip ++ ":" ++ port)
      else none
    | _, _ => none
  else none

/-- Embedding of `VastAIClient.wait_for_instance_ready`: the poll list is the sequence of
observations made before the timeout elapses; the first successful poll
returns the URL, exhausting the list returns `None` (no exception). -/
def waitForInstanceReady : List PollInst → Option String
  | [] => none
  | p :: rest =>
    match checkPoll p with
    | some url => some url
    | none => waitForInstanceReady rest

end Vast

namespace RunPod

/-- One runtime port entry of a `pod` query response, together with the health
probe outcome for the URL it forms (`none` when the request raised). -/
structure PodPort where
  privatePort : Nat
  ip : Option String
  publicPort : Option Nat
  healthStatusCode : Option Nat
  deriving DecidableEq

/-- What one `get_pod` poll observes in `wait_for_pod_ready`: the pod status
(returned by the query but never consulted by the loop) and the runtime
ports. -/
structure PodPoll where
  desiredStatus : String
  ports : List PodPort
  deriving DecidableEq

/-- The per-port body of the `wait_for_pod_ready` loop: a port entry yields the
API URL when it is the 8185 service port, has a truthy IP and public port,
and its health probe answered 200. -/
def checkPort (pp : PodPort) : Option String :=
  if pp.privatePort = 8185 then
    match pp.ip, pp.publicPort with
    | some ip, some port =>
      if ip = "" then none
      else if port = 0 then none
      else if pp.healthStatusCode = some 200 then some ("http://" ++ ip ++ ":" ++ toString port)
      else none
    | _, _ => none
  else none

/-- The inner `for port in ports` scan of `wait_for_pod_ready`. -/
def scanPorts : List PodPort → Option String
  | [] => none
  | pp :: rest =>
    match checkPort pp with
    | some url => some url
    | none => scanPorts rest

/-- The `TimeoutError` message of `wait_for_pod_ready`. -/
def timeoutMsg (podId : String) (timeoutS : Nat) : String :=
  "Pod " ++ podId ++ " did not become ready in " ++ toString timeoutS ++ "s"

/-- Embedding of `RunPodClient.wait_for_pod_ready`: the first poll whose port scan forms a
healthy URL returns it; exhausting the polls raises `TimeoutError` whose
message carries the pod id. -/
def waitForPodReady (podId : String) (timeoutS : Nat) : List PodPoll → Except String String
  | [] => .error (timeoutMsg podId timeoutS)
  | p :: rest =>
    match scanPorts p.ports with
    | some url => .ok url
    | none => waitForPodReady podId timeoutS rest

end RunPod

-- =============================================================================
-- Job wait with log streaming (`DemucsClient.wait_for_job` in
-- `vastai_client.py`; the plain wait of `runpod_client.py`)
-- =============================================================================
namespace Vast

/-- What one iteration of `DemucsClient.wait_for_job` observes: the job status
response (`status`, `error`, the `details` progress counters with
`totalSegments = 0` standing for an absent or empty `details`), and the state
of the remote log file during this iteration (`none` when the
`get_job_logs` request raises). -/
structure JobPoll where
  status : String
  error : Option String
  completedSegments : Nat
  totalSegments : Nat
  logFile : Option (List Char)
  deriving DecidableEq

/-- Modelled from the spec: the instance service endpoint
`GET /job/{id}/logs?offset=N`, which `src/server.py` does not implement (only
the client calls it).  Per the spec it returns the log tail starting at the
requested byte offset together with the new offset, i.e. the current end of
the log. -/
def logsEndpoint (file : List Char) (off : Nat) : List Char × Nat :=
  (file.drop off, file.length)

/-- How `wait_for_job` terminates. -/
inductive WaitResult where
  /-- status `completed`: the final status dict is returned. -/
  | completed (final : JobPoll)
  /-- status `failed`: `Exception("Job failed: <error>")` is raised. -/
  | jobFailed (errMsg : Option String)
  /-- the final log flush itself raised, so that exception propagates. -/
  | fetchRaise
  /-- the loop exhausted the timeout: `Exception("Job timeout ...")`. -/
  | timeout
  deriving DecidableEq

/-- The observable outcome of a `wait_for_job` run: how it ended, which log
chunks were printed (each tagged with the byte offset it starts at), and which
`(completed_segments, total_segments)` progress pairs were displayed. -/
structure WaitOutcome where
  result : WaitResult
  emitted : List (Nat × List Char)
  progress : List (Nat × Nat)
  deriving DecidableEq

/-- The terminal log flush of `wait_for_job` (`completed`/`failed` branches):
fetch from the current offset and print the logs only when non-empty. -/
def finalFlush (off : Nat) (file : List Char) : List (Nat × List Char) :=
  if (logsEndpoint file off).1 = [] then [] else [(off, (logsEndpoint file off).1)]

/-- The fallback progress display of one iteration: shown only when
`total_segments > 0`. -/
def progressOf (p : JobPoll) : List (Nat × Nat) :=
  if 0 < p.totalSegments then [(p.completedSegments, p.totalSegments)] else []

/-- Embedding of `DemucsClient.wait_for_job` (vastai client), over the finite list of polls
that fit inside the timeout, carrying the log offset cursor and the
`stream_logs` flag.  Streaming fetches from the cursor, prints a non-empty
tail and advances the cursor to the returned offset; a raising fetch
permanently clears `stream_logs` and the iteration falls through to the
percentage display, as do all later iterations. -/
def waitGo : List JobPoll → Nat → Bool → WaitOutcome
  | [], _, _ => ⟨.timeout, [], []⟩
  | p :: rest, off, streaming =>
    if p.status = "completed" then
      if streaming then
        match p.logFile with
        | some f => ⟨.completed p, finalFlush off f, []⟩
        | none => ⟨.fetchRaise, [], []⟩
      else ⟨.completed p, [], []⟩
    else if p.status = "failed" then
      if streaming then
        match p.logFile with
        | some f => ⟨.jobFailed p.error, finalFlush off f, []⟩
        | none => ⟨.fetchRaise, [], []⟩
      else ⟨.jobFailed p.error, [], []⟩
    else
      if streaming then
        match p.logFile with
        | some f =>
          let fetched := logsEndpoint f off
          if fetched.1 = [] then waitGo rest off true
          else
            let o := waitGo rest fetched.2 true
            ⟨o.result, (off, fetched.1) :: o.emitted, o.progress⟩
        | none =>
          let o := waitGo rest off false
          ⟨o.result, o.emitted, progressOf p ++ o.progress⟩
      else
        let o := waitGo rest off false
        ⟨o.result, o.emitted, progressOf p ++ o.progress⟩

/-- The `wait_for_job` entry point: offset cursor `0`, streaming enabled. -/
def waitForJob (polls : List JobPoll) : WaitOutcome :=
  waitGo polls 0 true

/-- The byte ranges of an emitted chunk list form an ordered, disjoint chain
starting at or after `lo`: each chunk is non-empty, starts at or after the
previous end, and offsets never decrease. -/
def chainFromB : Nat → List (Nat × List Char) → Bool
  | _, [] => true
  | lo, (o, c) :: rest => decide (lo ≤ o) && !c.isEmpty && chainFromB (o + c.length) rest

/-- The progress pairs a streaming-disabled wait displays: one pair per
non-terminal poll whose details carry a positive total. -/
def fallbackProgress : List JobPoll → List (Nat × Nat)
  | [] => []
  | p :: rest =>
    if p.status = "completed" ∨ p.status = "failed" then []
    else progressOf p ++ fallbackProgress rest

end Vast

namespace RunPod

/-- One polled job status in `DemucsClient.wait_for_job` (runpod client). -/
structure RJobPoll where
  status : String
  error : Option String
  deriving DecidableEq

/-- How the runpod `wait_for_job` terminates. -/
inductive RWaitResult where
  | completed (final : RJobPoll)
  | jobFailed (errMsg : Option String)
  | timeout
  deriving DecidableEq

/-- Embedding of `DemucsClient.wait_for_job` (runpod client): no log streaming; returns the
job on `completed`, raises `Exception("Job failed: <error>")` on `failed`,
and `TimeoutError` on exhaustion. -/
def waitForJob : List RJobPoll → RWaitResult
  | [] => .timeout
  | p :: rest =>
    if p.status = "completed" then .completed p
    else if p.status = "failed" then .jobFailed p.error
    else waitForJob rest

end RunPod

-- =============================================================================
-- Orchestration runs with guaranteed teardown (both `cmd_separate` functions)
-- =============================================================================

/-- The marketplace and instance-API calls an orchestration run makes after a
successful instance creation, as recorded in its trace. -/
inductive Call where
  | waitReady
  | modelsWait
  | createJob
  | waitJob
  | download
  | destroy
  deriving DecidableEq

namespace Vast

/-- The outcomes of the fallible steps of `vastai_client.cmd_separate` after a
successful `create_instance`: `readiness` is the result of
`wait_for_instance_ready` (which returns `None` on timeout), the remaining
steps either return or raise. -/
structure RunSteps where
  readiness : Option String
  createJob : Except String String
  waitJob : Except String Unit
  download : Except String Unit

/-- The `try` body of `vastai_client.cmd_separate`: each step runs only when
the previous one succeeded; a `None` readiness result raises
`"Instance failed to start"`.  Returns the body outcome and the trace of
calls made. -/
def separateBody (st : RunSteps) : Except String Unit × List Call :=
  match st.readiness with
  | none => (.error "Instance failed to start", [.waitReady])
  | some _ =>
    match st.createJob with
    | .error e => (.error e, [.waitReady, .createJob])
    | .ok _ =>
      match st.waitJob with
      | .error e => (.error e, [.waitReady, .createJob, .waitJob])
      | .ok _ =>
        match st.download with
        | .error e => (.error e, [.waitReady, .createJob, .waitJob, .download])
        | .ok _ => (.ok (), [.waitReady, .createJob, .waitJob, .download])

/-- Embedding of `vastai_client.cmd_separate` from the point where an instance exists: the
`finally` block calls `destroy_instance` exactly when `--keep-instance` was
not passed (`destroy_instance` itself never raises). -/
def cmdSeparate (keepInstance : Bool) (st : RunSteps) : Except String Unit × List Call :=
  let body := separateBody st
  (body.1, body.2 ++ if keepInstance then [] else [.destroy])

/-- Embedding of `VastAIClient.destroy_instance`: forwards the API outcome; any raised
exception is caught and reported as `False`. -/
def destroyInstance (apiOutcome : Except String Bool) : Bool :=
  match apiOutcome with
  | .ok b => b
  | .error _ => false

end Vast

namespace RunPod

/-- The outcomes of the fallible steps of `runpod_client.cmd_separate` after a
successful pod creation, including the models-ready wait (`status()` calls
can raise) and the outcome of the `stop_pod` call in the `finally` block
(which re-raises GraphQL errors). -/
structure RSteps where
  readiness : Except String String
  modelsWait : Except String Unit
  createJob : Except String String
  waitJob : Except String Unit
  download : Except String Unit
  stopPod : Except String Unit

/-- The `try` body of `runpod_client.cmd_separate`. -/
def separateBody (st : RSteps) : Except String Unit × List Call :=
  match st.readiness with
  | .error e => (.error e, [.waitReady])
  | .ok _ =>
    match st.modelsWait with
    | .error e => (.error e, [.waitReady, .modelsWait])
    | .ok _ =>
      match st.createJob with
      | .error e => (.error e, [.waitReady, .modelsWait, .createJob])
      | .ok _ =>
        match st.waitJob with
        | .error e => (.error e, [.waitReady, .modelsWait, .createJob, .waitJob])
        | .ok _ =>
          match st.download with
          | .error e => (.error e, [.waitReady, .modelsWait, .createJob, .waitJob, .download])
          | .ok _ => (.ok (), [.waitReady, .modelsWait, .createJob, .waitJob, .download])

/-- Embedding of `runpod_client.cmd_separate` from the point where a pod exists: the
`finally` block calls `stop_pod` exactly when `--keep-pod` was not passed;
when `stop_pod` itself raises, that exception supersedes the body outcome,
but the invocation has still happened. -/
def cmdSeparate (keepPod : Bool) (st : RSteps) : Except String Unit × List Call :=
  let body := separateBody st
  if keepPod then body
  else
    match st.stopPod with
    | .ok _ => (body.1, body.2 ++ [.destroy])
    | .error e => (.error e, body.2 ++ [.destroy])

end RunPod

-- =============================================================================
-- Batch capacity tester (`src/test_concurrent_instances.py`)
-- =============================================================================
namespace Tester

/-- The mutable state of an `InstanceTester`: the tallies, the round-robin
cursor, the trace of offers handed out by `get_next_offer`, and the recorded
instance list (index of each successful launch). -/
structure TState where
  successCount : Nat
  failCount : Nat
  offerIndex : Nat
  chosen : List Vast.VOffer
  instances : List (Nat × Int)
  deriving DecidableEq

/-- The initial tester state. -/
def initState : TState :=
  ⟨0, 0, 0, [], []⟩

/-- A placeholder offer for the (unreachable, because the constructor rejects
an empty offer list) out-of-range default of list indexing. -/
def dfltOffer : Vast.VOffer :=
  ⟨0, "", 0, 0, 1⟩

/-- Embedding of `InstanceTester.get_next_offer`: pick
`available_offers[offer_index % len(available_offers)]` and advance the
cursor. -/
def getNextOffer (offers : List Vast.VOffer) (s : TState) : Vast.VOffer × TState :=
  (offers.getD (s.offerIndex % offers.length) dfltOffer,
   { s with offerIndex := s.offerIndex + 1 })

/-- Embedding of `InstanceTester.launch_instance` for launch number `i`: select the next
offer round-robin, then attempt `create_instance` (its success is the
`createOk` oracle bit); a success appends an instance record and bumps
`success_count`, any exception bumps `fail_count`. -/
def launchInstance (offers : List Vast.VOffer) (createOk : Bool) (i : Nat) (s : TState) : TState :=
  let picked := getNextOffer offers s
  let s1 := { picked.2 with chosen := picked.2.chosen ++ [picked.1] }
  if createOk then
    { s1 with
      successCount := s1.successCount + 1
      instances := s1.instances ++ [(i, picked.1.id)] }
  else
    { s1 with failCount := s1.failCount + 1 }

/-- The sequential launch loop of `InstanceTester.run`: one oracle bit per
launch attempt. -/
def runLaunches (offers : List Vast.VOffer) : List Bool → Nat → TState → TState
  | [], _, s => s
  | b :: bs, i, s => runLaunches offers bs (i + 1) (launchInstance offers b i s)

/-- The tally of one `destroy_all_instances` record: `none` models a record
whose processing raises (e.g. a malformed entry; `destroy_instance` itself
never raises), `some apiOutcome` a record whose destroy call had the given
API outcome.  The loop counts every non-raising record as a success — the
boolean returned by `destroy_instance` is ignored. -/
def destroyLoop : List (Option (Except String Bool)) → Nat → Nat → List Bool → Nat × Nat × List Bool
  | [], s, f, acc => (s, f, acc.reverse)
  | none :: rest, s, f, acc => destroyLoop rest s (f + 1) acc
  | some r :: rest, s, f, acc => destroyLoop rest (s + 1) f (Vast.destroyInstance r :: acc)

/-- The observable outcome of `destroy_all_instances`. -/
structure DestroyAllOutcome where
  success : Nat
  failed : Nat
  fileRemoved : Bool
  results : List Bool
  deriving DecidableEq

/-- Embedding of `destroy_all_instances`: a missing file or an empty recorded list returns
early without touching the file; otherwise every record is processed and
`os.remove(INSTANCES_FILE)` runs unconditionally after the loop. -/
def destroyAllInstances (fileExists : Bool) (records : List (Option (Except String Bool))) :
    DestroyAllOutcome :=
  if fileExists = false then ⟨0, 0, false, []⟩
  else if records.isEmpty then ⟨0, 0, false, []⟩
  else
    let t := destroyLoop records 0 0 []
    ⟨t.1, t.2.1, true, t.2.2⟩

end Tester

-- =============================================================================
-- On-instance job server (`src/server.py`)
-- =============================================================================
namespace Server

/-- One entry of the global `JOBS` table as created by `create_job`. -/
structure JobRec where
  status : String
  inputUrl : String
  error : Option String
  deriving DecidableEq

/-- Computation `request.job_id or str(uuid.uuid4())[:8]`: an absent or empty requested id
falls back to the generated one. -/
def resolveJobId (requested : Option String) (genId : String) : String :=
  match requested with
  | some j => if j = "" then genId else j
  | none => genId

/-- Embedding of `POST /job` (`create_job`): reject a duplicate id with HTTP 409, then
reject with HTTP 503 when the models-ready marker file is absent; otherwise
insert a `pending` job record and answer with the job id and status
`pending`.  Returns the (possibly updated) job table and the response. -/
def createJob (modelsReady : Bool) (jobs : List (String × JobRec))
    (requested : Option String) (genId : String) (inputUrl : String) :
    List (String × JobRec) × Except Nat (String × String) :=
  let jobId := resolveJobId requested genId
  if (jobs.lookup jobId).isSome then (jobs, .error 409)
  else if modelsReady = false then (jobs, .error 503)
  else ((jobId, ⟨"pending", inputUrl, none⟩) :: jobs, .ok (jobId, "pending"))

/-- Embedding of `GET /health` (`health_check`): answers HTTP 200 regardless of the
models-ready state, which it never consults. -/
def healthCheck (_modelsReady : Bool) : Nat :=
  200

end Server

end FfmpegDemucs

-- =============================================================================
-- Theorems
-- =============================================================================
namespace FfmpegDemucs

/-- Claim C1: for every orchestration run of the separate workflow that
successfully creates an instance, the teardown (destroy-instance / stop-pod)
operation is invoked exactly once before the run exits, on every exit path —
success, job failure, readiness or job timeout, and unexpected exception —
unless the caller set the keep-instance flag, in which case it is never
invoked. -/
theorem C1_teardown_exactly_once :
    (∀ (keep : Bool) (st : Vast.RunSteps),
        ((Vast.cmdSeparate keep st).2.count Call.destroy) = if keep then 0 else 1) ∧
    (∀ (keep : Bool) (st : RunPod.RSteps),
        ((RunPod.cmdSeparate keep st).2.count Call.destroy) = if keep then 0 else 1) := by
  constructor
  · rintro keep ⟨r, cj, wj, dl⟩
    cases keep <;> cases r <;> cases cj <;> cases wj <;> cases dl <;> rfl
  · rintro keep ⟨rd, mw, cj, wj, dl, sp⟩
    cases keep <;> cases rd <;> cases mw <;> cases cj <;> cases wj <;> cases dl <;>
      cases sp <;> rfl

/-- A prefix of capacity-class failures is skipped by the runpod creation loop,
each costing one attempt. -/
theorem RunPod.provisionLoop_skip_capacity (pre : List (Except String String))
    (hpre : ∀ x ∈ pre, RunPod.isCapacityOutcome x = true) (tail : List (Except String String))
    (n : Nat) :
    RunPod.provisionLoop (pre ++ tail) n = RunPod.provisionLoop tail (n + pre.length) := by
  induction pre generalizing n with
  | nil => simp
  | cons r pre ih =>
    have hr := hpre r (by simp)
    have hrest : ∀ x ∈ pre, RunPod.isCapacityOutcome x = true := fun x hx =>
      hpre x (by simp [hx])
    cases r with
    | ok pod => simp [RunPod.isCapacityOutcome] at hr
    | error e =>
      simp only [RunPod.isCapacityOutcome] at hr
      simp only [List.cons_append, RunPod.provisionLoop, RunPod.tryCreatePod, hr, if_true,
        List.append_eq, List.length_cons]
      rw [ih hrest]
      congr 1
      omega

/-- A prefix of plain creation failures is skipped by the vastai creation loop,
each costing one attempt. -/
theorem Vast.provisionLoop_skip_failures (pre : List (Except String Int))
    (hpre : ∀ x ∈ pre, x.isOk = false) (tail : List (Except String Int)) (n : Nat) :
    Vast.provisionLoop (pre ++ tail) n = Vast.provisionLoop tail (n + pre.length) := by
  induction pre generalizing n with
  | nil => simp
  | cons r pre ih =>
    have hr := hpre r (by simp)
    have hrest : ∀ x ∈ pre, x.isOk = false := fun x hx => hpre x (by simp [hx])
    cases r with
    | ok iid => simp [Except.isOk, Except.toBool] at hr
    | error e =>
      simp only [List.cons_append, Vast.provisionLoop, List.append_eq, List.length_cons]
      rw [ih hrest]
      congr 1
      omega

/-- Claim C2, amended: in the RunPod client, provisioning iterates the ranked
offers in order, swallows capacity-class creation failures, short-circuits on
the first success after exactly k attempts when offer k is the first to
succeed, aborts immediately on any non-capacity failure, and reports no
capacity after exhausting the list; in the Vast.ai client, EVERY creation
failure (capacity-class or not) is swallowed and the next offer is tried, with
the same short-circuit and exhaustion behaviour. -/
theorem C2_provisioning :
    (∀ (pre rest : List (Except String String)) (pod : String),
        (∀ x ∈ pre, RunPod.isCapacityOutcome x = true) →
        RunPod.provisionLoop (pre ++ Except.ok pod :: rest) 0
          = (pre.length + 1, .ok (some pod))) ∧
    (∀ (pre rest : List (Except String String)) (e : String),
        (∀ x ∈ pre, RunPod.isCapacityOutcome x = true) →
        RunPod.isCapacityMsg e = false →
        RunPod.provisionLoop (pre ++ Except.error e :: rest) 0
          = (pre.length + 1, .error e)) ∧
    (∀ offers : List (Except String String),
        (∀ x ∈ offers, RunPod.isCapacityOutcome x = true) →
        RunPod.provisionLoop offers 0 = (offers.length, .ok none)) ∧
    (∀ (pre rest : List (Except String Int)) (iid : Int),
        (∀ x ∈ pre, x.isOk = false) →
        Vast.provisionLoop (pre ++ Except.ok iid :: rest) 0
          = (pre.length + 1, some iid)) ∧
    (∀ offers : List (Except String Int),
        (∀ x ∈ offers, x.isOk = false) →
        Vast.provisionLoop offers 0 = (offers.length, none)) := by
  refine ⟨?_, ?_, ?_, ?_, ?_⟩
  · intro pre rest pod hpre
    rw [RunPod.provisionLoop_skip_capacity pre hpre]
    simp [RunPod.provisionLoop, RunPod.tryCreatePod]
  · intro pre rest e hpre he
    rw [RunPod.provisionLoop_skip_capacity pre hpre]
    simp [RunPod.provisionLoop, RunPod.tryCreatePod, he]
  · intro offers h
    have := RunPod.provisionLoop_skip_capacity offers h [] 0
    simpa [RunPod.provisionLoop] using this
  · intro pre rest iid hpre
    rw [Vast.provisionLoop_skip_failures pre hpre]
    simp [Vast.provisionLoop]
  · intro offers h
    have := Vast.provisionLoop_skip_failures offers h [] 0
    simpa [Vast.provisionLoop] using this

/-- Concrete run of the amended C2 statements: one capacity failure then a
success for runpod (two attempts), a fatal auth failure aborting immediately,
and the vastai loop swallowing a failure before succeeding. -/
theorem C2_provisioning_witness :
    RunPod.provisionLoop
        [Except.error "Instance does not have enough resources", Except.ok "pod-7"] 0
      = (2, .ok (some "pod-7")) ∧
    RunPod.provisionLoop
        [Except.error "401 unauthorized", Except.ok "pod-7"] 0 = (1, .error "401 unauthorized") ∧
    Vast.provisionLoop [Except.error "boom", Except.ok 7] 0 = (2, some 7) := by
  refine ⟨?_, ?_, ?_⟩
  · exact C2_provisioning.1 [Except.error "Instance does not have enough resources"] []
      "pod-7" (by intro x hx; simp at hx; subst hx; decide)
  · exact C2_provisioning.2.1 [] [Except.ok "pod-7"] "401 unauthorized"
      (by intro x hx; simp at hx) (by decide)
  · exact C2_provisioning.2.2.2.1 [Except.error "boom"] [] 7
      (by intro x hx; simp at hx; subst hx; rfl)

/-- Counterexample to claim C2 as stated: in the Vast.ai client a non-capacity
failure (an auth error, which the runpod classifier itself does not recognise
as a capacity error) does not abort provisioning — the loop swallows it and a
second creation attempt is made and succeeds. -/
theorem C2_counterexample :
    Vast.provisionLoop [Except.error "401 unauthorized", Except.ok 7] 0 = (2, some 7) ∧
    RunPod.isCapacityMsg "401 unauthorized" = false := by
  exact ⟨rfl, by decide⟩

/-- Closed form of the destroy-all loop: every well-formed record is tallied as
a success (its destroy outcome is ignored), every raising record as a failure,
and the result list collects the forwarded destroy outcomes in order. -/
theorem Tester.destroyLoop_spec (records : List (Option (Except String Bool)))
    (s f : Nat) (acc : List Bool) :
    Tester.destroyLoop records s f acc
      = (s + records.countP Option.isSome, f + records.countP (fun r => r.isSome = false),
         acc.reverse ++ (records.filterMap id).map Vast.destroyInstance) := by
  induction records generalizing s f acc with
  | nil => simp [Tester.destroyLoop]
  | cons r rest ih =>
    cases r with
    | none =>
      rw [Tester.destroyLoop, ih]
      simp [List.countP_cons]
      omega
    | some o =>
      rw [Tester.destroyLoop, ih]
      simp [List.countP_cons, List.filterMap_cons]
      omega

/-- Counterexample to claim C7 as stated: a single recorded instance whose
destroy call reports failure (the API answers `success: false`, so
`destroy_instance` returns `False`) is nevertheless tallied as a success and
the persisted file is removed, not retained. -/
theorem C7_counterexample :
    Tester.destroyAllInstances true [some (Except.ok false)]
      = ⟨1, 0, true, [false]⟩ := by
  rfl

/-- Claim C7, amended: the destroy-all pass removes the persisted
instance-record file exactly when the file exists and the recorded list is
non-empty and the pass runs to completion, regardless of individual destroy
outcomes; a destroy that reports failure does not prevent deletion and is even
tallied as a success (its boolean result is ignored), and only a record whose
processing raises is tallied as failed. -/
theorem C7_destroy_all :
    (∀ (fileExists : Bool) (records : List (Option (Except String Bool))),
        (Tester.destroyAllInstances fileExists records).fileRemoved
          = (fileExists && !records.isEmpty)) ∧
    (∀ records : List (Option (Except String Bool)), records.isEmpty = false →
        Tester.destroyAllInstances true records
          = ⟨records.countP Option.isSome, records.countP (fun r => r.isSome = false), true,
             (records.filterMap id).map Vast.destroyInstance⟩) := by
  constructor
  · intro fe records
    cases fe with
    | false => rfl
    | true =>
      cases h : records.isEmpty with
      | true => simp [Tester.destroyAllInstances, h]
      | false => simp [Tester.destroyAllInstances, h, Tester.destroyLoop_spec]
  · intro records h
    simp [Tester.destroyAllInstances, h, Tester.destroyLoop_spec]

/-- Concrete run of the amended C7 statement: two well-formed records (one
destroy succeeding, one failing) and one malformed record; the file is
removed, the failing destroy still counts as a success, and the malformed
record as the only failure. -/
theorem C7_destroy_all_witness :
    Tester.destroyAllInstances true [some (Except.ok true), some (Except.ok false), none]
      = ⟨2, 1, true, [true, false]⟩ := by
  have h := C7_destroy_all.2 [some (Except.ok true), some (Except.ok false), none] (by rfl)
  simpa using h

/-- The batch launch loop in closed form: both tallies, the round-robin cursor
and the trace of offers handed out, starting from an arbitrary state. -/
theorem Tester.runLaunches_spec (offers : List Vast.VOffer) (outcomes : List Bool)
    (i : Nat) (s : Tester.TState) :
    (Tester.runLaunches offers outcomes i s).successCount
        + (Tester.runLaunches offers outcomes i s).failCount
      = s.successCount + s.failCount + outcomes.length ∧
    (Tester.runLaunches offers outcomes i s).offerIndex = s.offerIndex + outcomes.length ∧
    (Tester.runLaunches offers outcomes i s).chosen
      = s.chosen ++ (List.range' s.offerIndex outcomes.length).map
          (fun idx => offers.getD (idx % offers.length) Tester.dfltOffer) := by
  induction outcomes generalizing i s with
  | nil => simp [Tester.runLaunches]
  | cons b bs ih =>
    have step := ih (i + 1) (Tester.launchInstance offers b i s)
    have hsum : (Tester.launchInstance offers b i s).successCount
        + (Tester.launchInstance offers b i s).failCount
        = s.successCount + s.failCount + 1 := by
      cases b <;> simp [Tester.launchInstance, Tester.getNextOffer] <;> omega
    have hidx : (Tester.launchInstance offers b i s).offerIndex = s.offerIndex + 1 := by
      cases b <;> simp [Tester.launchInstance, Tester.getNextOffer]
    have hch : (Tester.launchInstance offers b i s).chosen
        = s.chosen ++ [offers.getD (s.offerIndex % offers.length) Tester.dfltOffer] := by
      cases b <;> simp [Tester.launchInstance, Tester.getNextOffer]
    refine ⟨?_, ?_, ?_⟩
    · rw [Tester.runLaunches, step.1, hsum]
      simp
      omega
    · rw [Tester.runLaunches, step.2.1, hidx]
      simp
      omega
    · rw [Tester.runLaunches, step.2.2, hch, hidx]
      rw [List.length_cons, List.range'_succ, List.map_cons]
      simp [List.append_assoc]

/-- Claim C8: for a batch of N sequential launch attempts, after every attempt
`success_count + fail_count` equals the number of attempts made so far (so it
equals N at the end), and the i-th launch selects offer index
`i mod list_length` from the single ranked offer list fetched once up front,
cycling when N exceeds the list length. -/
theorem C8_batch_invariants (offers : List Vast.VOffer) (outcomes : List Bool)
    (_hne : offers ≠ []) :
    (∀ k : Nat,
        (Tester.runLaunches offers (outcomes.take k) 0 Tester.initState).successCount
          + (Tester.runLaunches offers (outcomes.take k) 0 Tester.initState).failCount
        = (outcomes.take k).length) ∧
    (Tester.runLaunches offers outcomes 0 Tester.initState).successCount
        + (Tester.runLaunches offers outcomes 0 Tester.initState).failCount
      = outcomes.length ∧
    (Tester.runLaunches offers outcomes 0 Tester.initState).chosen
      = (List.range outcomes.length).map
          (fun i => offers.getD (i % offers.length) Tester.dfltOffer) := by
  refine ⟨?_, ?_, ?_⟩
  · intro k
    have h := Tester.runLaunches_spec offers (outcomes.take k) 0 Tester.initState
    simpa [Tester.initState] using h.1
  · have h := Tester.runLaunches_spec offers outcomes 0 Tester.initState
    simpa [Tester.initState] using h.1
  · have h := Tester.runLaunches_spec offers outcomes 0 Tester.initState
    rw [h.2.2]
    simp [Tester.initState, List.range'_eq_map_range, List.map_map, Function.comp_def]

/-- Concrete batch of 5 launch attempts over a 2-offer list: the tallies add up
after every prefix and the round-robin cursor wraps (offers 0,1,0,1,0). -/
theorem C8_batch_invariants_witness :
    ((Tester.runLaunches [Tester.dfltOffer, ⟨5, "RTX 3090", 24, 2, 1⟩]
        [true, false, true, true, false] 0 Tester.initState).successCount
      + (Tester.runLaunches [Tester.dfltOffer, ⟨5, "RTX 3090", 24, 2, 1⟩]
        [true, false, true, true, false] 0 Tester.initState).failCount = 5) ∧
    (Tester.runLaunches [Tester.dfltOffer, ⟨5, "RTX 3090", 24, 2, 1⟩]
        [true, false, true, true, false] 0 Tester.initState).chosen
      = [Tester.dfltOffer, ⟨5, "RTX 3090", 24, 2, 1⟩, Tester.dfltOffer,
         ⟨5, "RTX 3090", 24, 2, 1⟩, Tester.dfltOffer] := by
  have h := C8_batch_invariants [Tester.dfltOffer, ⟨5, "RTX 3090", 24, 2, 1⟩]
    [true, false, true, true, false] (by simp)
  exact ⟨h.2.1, by rw [h.2.2]; rfl⟩

/-- Every GPU surviving `get_available_gpus` satisfies the 8 GB VRAM filter. -/
theorem RunPod.vram_of_mem_getAvailableGpus {raw : List RunPod.RawGpu} {g : RunPod.Gpu}
    (h : g ∈ RunPod.getAvailableGpus raw) : 8 ≤ g.vramGb := by
  unfold RunPod.getAvailableGpus at h
  rw [List.mem_insertionSort] at h
  obtain ⟨g0, hg0, rfl⟩ := List.mem_map.mp h
  obtain ⟨-, hfil⟩ := List.mem_filter.mp hg0
  have := of_decide_eq_true hfil
  simpa [RunPod.parseGpu] using this

/-- The `get_available_gpus` output is price-sorted. -/
theorem RunPod.sorted_getAvailableGpus (raw : List RunPod.RawGpu) :
    List.Sorted RunPod.priceLe (RunPod.getAvailableGpus raw) :=
  List.sorted_insertionSort RunPod.priceLe _

/-- A found preferred GPU comes from the scanned list. -/
theorem RunPod.findPreferred_mem {pref : String} {used : List String} {top : List RunPod.Gpu}
    {g : RunPod.Gpu} (h : RunPod.findPreferred pref used top = some g) : g ∈ top := by
  induction top with
  | nil => simp [RunPod.findPreferred] at h
  | cons x rest ih =>
    rw [RunPod.findPreferred] at h
    split at h
    · cases h
      simp
    · simp [ih h]

/-- Every GPU pulled by phase 1 comes from the accumulator or the scanned
cheapest-ten list. -/
theorem RunPod.pullPreferredLoop_mem {top : List RunPod.Gpu} :
    ∀ (prefs : List String) (acc : List RunPod.Gpu × List String) (g : RunPod.Gpu),
      g ∈ (RunPod.pullPreferredLoop top prefs acc).1 → g ∈ acc.1 ∨ g ∈ top := by
  intro prefs
  induction prefs with
  | nil =>
    intro acc g h
    exact Or.inl h
  | cons pref prefs ih =>
    intro acc g h
    obtain ⟨r, used⟩ := acc
    rw [RunPod.pullPreferredLoop] at h
    cases hf : RunPod.findPreferred pref used top with
    | none =>
      rw [hf] at h
      exact ih _ g h
    | some x =>
      rw [hf] at h
      rcases ih _ g h with hin | hin
      · rcases List.mem_append.mp hin with h1 | h1
        · exact Or.inl h1
        · simp only [List.mem_singleton] at h1
          subst h1
          exact Or.inr (RunPod.findPreferred_mem hf)
      · exact Or.inr hin

/-- Phase 1 pulls at most one GPU per preferred model. -/
theorem RunPod.pullPreferredLoop_length {top : List RunPod.Gpu} :
    ∀ (prefs : List String) (acc : List RunPod.Gpu × List String),
      (RunPod.pullPreferredLoop top prefs acc).1.length ≤ acc.1.length + prefs.length := by
  intro prefs
  induction prefs with
  | nil =>
    intro acc
    simp [RunPod.pullPreferredLoop]
  | cons pref prefs ih =>
    intro acc
    obtain ⟨r, used⟩ := acc
    rw [RunPod.pullPreferredLoop]
    cases hf : RunPod.findPreferred pref used top with
    | none =>
      have := ih (r, used)
      simp at this ⊢
      omega
    | some x =>
      have := ih (r ++ [x], used ++ [x.id])
      simp at this ⊢
      omega

/-- Phase 2 output is a sublist of its price-ordered input. -/
theorem RunPod.appendUnused_sublist : ∀ (gpus : List RunPod.Gpu) (used : List String),
    List.Sublist (RunPod.appendUnused gpus used) gpus := by
  intro gpus
  induction gpus with
  | nil =>
    intro used
    simp [RunPod.appendUnused]
  | cons g rest ih =>
    intro used
    rw [RunPod.appendUnused]
    split
    · exact (ih used).cons g
    · exact (ih (g.id :: used)).cons₂ g

/-- Every offer surviving the vastai ranking satisfies the reliability filter. -/
theorem Vast.reliable_of_mem_getRankedOffers {offers : List Vast.VOffer} {n : Nat}
    {o : Vast.VOffer} (h : o ∈ Vast.getRankedOffers offers n) :
    Vast.reliableEnough o = true := by
  unfold Vast.getRankedOffers at h
  split at h
  · simp at h
  · have h2 := List.mem_of_mem_take h
    rw [List.mem_insertionSort] at h2
    exact (List.mem_filter.mp h2).2

/-- The vastai ranking is price-sorted. -/
theorem Vast.sorted_getRankedOffers (offers : List Vast.VOffer) (n : Nat) :
    List.Sorted Vast.vPriceLe (Vast.getRankedOffers offers n) := by
  unfold Vast.getRankedOffers
  split
  · exact List.sorted_nil
  · exact (List.sorted_insertionSort Vast.vPriceLe _).sublist (List.take_sublist _ _)

/-- Claim C6, amended: the RunPod ranking keeps exactly the GPUs that satisfy
the 8 GB min-VRAM filter and consists of at most `len(PREFERRED_GPUS)` GPUs
pulled — in preferred order — from the cheapest ten, followed by the remaining
GPUs in price order (a price-sorted sublist of the filtered price-sorted
list), truncated to `max_results`; the Vast.ai ranking keeps exactly the
offers with reliability at least 0.9 sorted by price ascending truncated to
`max_results`, with no preferred-GPU reordering; in both, an empty filtered
set yields an empty ranking. -/
theorem C6_ranking :
    (∀ (raw : List RunPod.RawGpu) (n : Nat) (g : RunPod.Gpu),
        g ∈ RunPod.getRankedGpus raw n → 8 ≤ g.vramGb) ∧
    (∀ (offers : List Vast.VOffer) (n : Nat) (o : Vast.VOffer),
        o ∈ Vast.getRankedOffers offers n → Vast.reliableEnough o = true) ∧
    (∀ (offers : List Vast.VOffer) (n : Nat),
        List.Sorted Vast.vPriceLe (Vast.getRankedOffers offers n)) ∧
    (∀ (raw : List RunPod.RawGpu) (n : Nat),
        ∃ pulled used,
          RunPod.getRankedGpus raw n
            = (pulled ++ RunPod.appendUnused (RunPod.getAvailableGpus raw) used).take n ∧
          pulled.length ≤ RunPod.PREFERRED_GPUS.length ∧
          (∀ g ∈ pulled, g ∈ (RunPod.getAvailableGpus raw).take 10) ∧
          List.Sublist (RunPod.appendUnused (RunPod.getAvailableGpus raw) used)
            (RunPod.getAvailableGpus raw) ∧
          List.Sorted RunPod.priceLe
            (RunPod.appendUnused (RunPod.getAvailableGpus raw) used)) ∧
    (∀ (offers : List Vast.VOffer) (n : Nat),
        (offers.filter Vast.reliableEnough).isEmpty = true →
        Vast.getRankedOffers offers n = []) ∧
    (∀ (raw : List RunPod.RawGpu) (n : Nat),
        (RunPod.getAvailableGpus raw).isEmpty = true → RunPod.getRankedGpus raw n = []) := by
  refine ⟨?_, ?_, ?_, ?_, ?_, ?_⟩
  · intro raw n g hg
    by_cases he : (RunPod.getAvailableGpus raw).isEmpty
    · simp [RunPod.getRankedGpus, he] at hg
    · simp only [RunPod.getRankedGpus, he, Bool.false_eq_true, if_false] at hg
      have h2 := List.mem_of_mem_take hg
      rcases List.mem_append.mp h2 with h3 | h3
      · rcases RunPod.pullPreferredLoop_mem RunPod.PREFERRED_GPUS ([], []) g h3 with h4 | h4
        · simp at h4
        · exact RunPod.vram_of_mem_getAvailableGpus (List.mem_of_mem_take h4)
      · exact RunPod.vram_of_mem_getAvailableGpus
          ((RunPod.appendUnused_sublist _ _).subset h3)
  · intro offers n o h
    exact Vast.reliable_of_mem_getRankedOffers h
  · intro offers n
    exact Vast.sorted_getRankedOffers offers n
  · intro raw n
    by_cases he : (RunPod.getAvailableGpus raw).isEmpty
    · rw [List.isEmpty_iff] at he
      refine ⟨[], [], ?_, by simp, by simp, ?_, ?_⟩
      · simp [RunPod.getRankedGpus, he, RunPod.appendUnused]
      · rw [he]
        simp [RunPod.appendUnused]
      · rw [he]
        simp [RunPod.appendUnused]
    · refine ⟨(RunPod.pullPreferredLoop ((RunPod.getAvailableGpus raw).take 10)
          RunPod.PREFERRED_GPUS ([], [])).1,
        (RunPod.pullPreferredLoop ((RunPod.getAvailableGpus raw).take 10)
          RunPod.PREFERRED_GPUS ([], [])).2, ?_, ?_, ?_, ?_, ?_⟩
      · simp [RunPod.getRankedGpus, he]
      · have := @RunPod.pullPreferredLoop_length ((RunPod.getAvailableGpus raw).take 10)
          RunPod.PREFERRED_GPUS ([], [])
        simpa using this
      · intro g hg
        rcases RunPod.pullPreferredLoop_mem RunPod.PREFERRED_GPUS ([], []) g hg with h4 | h4
        · simp at h4
        · exact h4
      · exact RunPod.appendUnused_sublist _ _
      · exact (RunPod.sorted_getAvailableGpus raw).sublist (RunPod.appendUnused_sublist _ _)
  · intro offers n h
    unfold Vast.getRankedOffers
    split
    · rfl
    · rw [List.isEmpty_iff] at h
      rw [h]
      simp
  · intro raw n h
    rw [List.isEmpty_iff] at h
    simp [RunPod.getRankedGpus, h]

/-- Concrete rankings: a below-VRAM GPU is dropped and a preferred RTX 3090 is
pulled ahead of a cheaper unpreferred GPU by the RunPod ranker; the concrete
membership facts instantiate the amended statements. -/
theorem C6_ranking_witness :
    RunPod.getRankedGpus
        [⟨"g-small", some "NVIDIA T400", some 4, some 1, none, true, false⟩,
         ⟨"g-cheap", some "NVIDIA L4", some 24, some 1, none, true, false⟩,
         ⟨"g-3090", some "NVIDIA RTX 3090", some 24, some 2, none, true, false⟩] 10
      = [RunPod.parseGpu ⟨"g-3090", some "NVIDIA RTX 3090", some 24, some 2, none, true, false⟩,
         RunPod.parseGpu ⟨"g-cheap", some "NVIDIA L4", some 24, some 1, none, true, false⟩] ∧
    (8 : Int) ≤ (RunPod.parseGpu
        ⟨"g-3090", some "NVIDIA RTX 3090", some 24, some 2, none, true, false⟩).vramGb ∧
    Vast.getRankedOffers [⟨1, "GTX 1080", 8, 1, 1⟩, ⟨2, "RTX 3090", 24, 2, mkRat 1 2⟩] 10
      = [⟨1, "GTX 1080", 8, 1, 1⟩] ∧
    Vast.reliableEnough (⟨1, "GTX 1080", 8, 1, 1⟩ : Vast.VOffer) = true := by
  refine ⟨by decide, ?_, by decide, ?_⟩
  · exact C6_ranking.1
      [⟨"g-small", some "NVIDIA T400", some 4, some 1, none, true, false⟩,
       ⟨"g-cheap", some "NVIDIA L4", some 24, some 1, none, true, false⟩,
       ⟨"g-3090", some "NVIDIA RTX 3090", some 24, some 2, none, true, false⟩] 10
      (RunPod.parseGpu ⟨"g-3090", some "NVIDIA RTX 3090", some 24, some 2, none, true, false⟩)
      (by decide)
  · exact C6_ranking.2.1 [⟨1, "GTX 1080", 8, 1, 1⟩, ⟨2, "RTX 3090", 24, 2, mkRat 1 2⟩] 10
      ⟨1, "GTX 1080", 8, 1, 1⟩ (by decide)

/-- Counterexample to claim C6 as stated: the Vast.ai ranker performs no
preferred-GPU reordering — an offer whose name matches the first preferred GPU
model (case-insensitively), sitting among the cheapest ten filtered offers, is
left in plain price position instead of being moved to the front. -/
theorem C6_counterexample :
    Vast.getRankedOffers
        [⟨1, "GTX 1080", 8, 1, 1⟩, ⟨2, "NVIDIA RTX 3090", 24, 2, 1⟩] 10
      = [⟨1, "GTX 1080", 8, 1, 1⟩, ⟨2, "NVIDIA RTX 3090", 24, 2, 1⟩] ∧
    strContains (RunPod.PREFERRED_GPUS.headD "") "NVIDIA RTX 3090" = true ∧
    strContains (RunPod.PREFERRED_GPUS.headD "") "GTX 1080" = false := by
  refine ⟨by decide, by decide, by decide⟩

/-- Claim C10: a job record (initial status `pending`) is created if and only
if the models-ready marker exists and the resolved job id is not already in
the job table; otherwise the request fails with HTTP 409 (duplicate id, which
takes precedence) or HTTP 503 (models not ready) and the table is unchanged —
while the health endpoint answers 200 even when models are not ready. -/
theorem C10_create_job :
    (∀ (ready : Bool) (jobs : List (String × Server.JobRec))
        (req : Option String) (gen url : String),
        (∃ r, (Server.createJob ready jobs req gen url).2 = .ok r)
          ↔ (ready = true ∧ (jobs.lookup (Server.resolveJobId req gen)).isSome = false)) ∧
    (∀ (ready : Bool) (jobs : List (String × Server.JobRec))
        (req : Option String) (gen url : String),
        (jobs.lookup (Server.resolveJobId req gen)).isSome = true →
        Server.createJob ready jobs req gen url = (jobs, .error 409)) ∧
    (∀ (jobs : List (String × Server.JobRec)) (req : Option String) (gen url : String),
        (jobs.lookup (Server.resolveJobId req gen)).isSome = false →
        Server.createJob false jobs req gen url = (jobs, .error 503)) ∧
    (∀ (jobs : List (String × Server.JobRec)) (req : Option String) (gen url : String),
        (jobs.lookup (Server.resolveJobId req gen)).isSome = false →
        Server.createJob true jobs req gen url
          = ((Server.resolveJobId req gen, ⟨"pending", url, none⟩) :: jobs,
             .ok (Server.resolveJobId req gen, "pending"))) ∧
    (∀ (e : Nat) (ready : Bool) (jobs : List (String × Server.JobRec))
        (req : Option String) (gen url : String),
        (Server.createJob ready jobs req gen url).2 = .error e →
        (Server.createJob ready jobs req gen url).1 = jobs ∧ (e = 409 ∨ e = 503)) ∧
    Server.healthCheck false = 200 := by
  refine ⟨?_, ?_, ?_, ?_, ?_, rfl⟩
  · intro ready jobs req gen url
    cases hl : (jobs.lookup (Server.resolveJobId req gen)).isSome <;>
      cases ready <;> simp [Server.createJob, hl]
  · intro ready jobs req gen url hl
    simp [Server.createJob, hl]
  · intro jobs req gen url hl
    simp [Server.createJob, hl]
  · intro jobs req gen url hl
    simp [Server.createJob, hl]
  · intro e ready jobs req gen url h
    cases hl : (jobs.lookup (Server.resolveJobId req gen)).isSome <;>
      cases ready <;> simp [Server.createJob, hl] at h ⊢ <;> omega

/-- Inversion of one vastai readiness poll: a URL is produced only when the
status is `running`, a non-empty IP and a non-empty mapped external port for
8185/tcp exist, and the health probe answered 200. -/
theorem Vast.checkPoll_eq_some {p : Vast.PollInst} {url : String}
    (h : Vast.checkPoll p = some url) :
    p.status = "running" ∧ p.healthStatusCode = some 200 ∧
    ∃ ip port rest, p.publicIpaddr = some ip ∧ p.apiPortInfo = some (some port :: rest) ∧
      ip ≠ "" ∧ port ≠ "" ∧ url = "http://" ++ ip ++ ":" ++ port := by
  obtain ⟨st, pip, api, hcode⟩ := p
  by_cases hst : st = "running"
  · subst hst
    cases pip with
    | none => simp [Vast.checkPoll] at h
    | some ip =>
      cases api with
      | none => simp [Vast.checkPoll] at h
      | some entries =>
        cases entries with
        | nil => simp [Vast.checkPoll] at h
        | cons entry tail =>
          cases entry with
          | none => simp [Vast.checkPoll] at h
          | some port =>
            simp only [Vast.checkPoll, if_true] at h
            split_ifs at h with hip hprt hhc <;>
              first
                | exact Option.noConfusion h
                | (injection h with h2
                   exact ⟨rfl, hhc, ip, port, tail, rfl, rfl, hip, hprt, h2.symm⟩)
  · simp [Vast.checkPoll, hst] at h

/-- The vastai readiness wait returns a URL only via a successful poll. -/
theorem Vast.waitForInstanceReady_eq_some {polls : List Vast.PollInst} {url : String}
    (h : Vast.waitForInstanceReady polls = some url) :
    ∃ p ∈ polls, Vast.checkPoll p = some url := by
  induction polls with
  | nil => simp [Vast.waitForInstanceReady] at h
  | cons p rest ih =>
    rw [Vast.waitForInstanceReady] at h
    cases hc : Vast.checkPoll p with
    | some u =>
      rw [hc] at h
      simp only [Option.some.injEq] at h
      subst h
      exact ⟨p, by simp, hc⟩
    | none =>
      rw [hc] at h
      obtain ⟨q, hq, hcq⟩ := ih h
      exact ⟨q, by simp [hq], hcq⟩

/-- When every poll fails, the vastai readiness wait returns `none`. -/
theorem Vast.waitForInstanceReady_eq_none {polls : List Vast.PollInst}
    (h : ∀ p ∈ polls, Vast.checkPoll p = none) :
    Vast.waitForInstanceReady polls = none := by
  induction polls with
  | nil => rfl
  | cons p rest ih =>
    rw [Vast.waitForInstanceReady, h p (by simp)]
    exact ih fun q hq => h q (by simp [hq])

/-- Inversion of one runpod port check: a URL is produced only for the 8185
service port with a truthy IP, a truthy public port and a 200 health probe. -/
theorem RunPod.checkPort_eq_some {pp : RunPod.PodPort} {url : String}
    (h : RunPod.checkPort pp = some url) :
    pp.privatePort = 8185 ∧ pp.healthStatusCode = some 200 ∧
    ∃ ip port, pp.ip = some ip ∧ pp.publicPort = some port ∧
      ip ≠ "" ∧ port ≠ 0 ∧ url = "http://" ++ ip ++ ":" ++ toString port := by
  obtain ⟨priv, pipf, ppub, hcode⟩ := pp
  by_cases hpp : priv = 8185
  · subst hpp
    cases pipf with
    | none => simp [RunPod.checkPort] at h
    | some ip =>
      cases ppub with
      | none => simp [RunPod.checkPort] at h
      | some port =>
        simp only [RunPod.checkPort, if_true] at h
        split_ifs at h with hip hprt hhc <;>
          first
            | exact Option.noConfusion h
            | (injection h with h2
               exact ⟨rfl, hhc, ip, port, rfl, rfl, hip, hprt, h2.symm⟩)
  · simp [RunPod.checkPort, hpp] at h

/-- The runpod port scan returns a URL only via a successful port entry. -/
theorem RunPod.scanPorts_eq_some {ports : List RunPod.PodPort} {url : String}
    (h : RunPod.scanPorts ports = some url) :
    ∃ pp ∈ ports, RunPod.checkPort pp = some url := by
  induction ports with
  | nil => simp [RunPod.scanPorts] at h
  | cons pp rest ih =>
    rw [RunPod.scanPorts] at h
    cases hc : RunPod.checkPort pp with
    | some u =>
      rw [hc] at h
      simp only [Option.some.injEq] at h
      subst h
      exact ⟨pp, by simp, hc⟩
    | none =>
      rw [hc] at h
      obtain ⟨q, hq, hcq⟩ := ih h
      exact ⟨q, by simp [hq], hcq⟩

/-- The runpod readiness wait returns a URL only via a successful poll. -/
theorem RunPod.waitForPodReady_eq_ok {podId : String} {t : Nat}
    {polls : List RunPod.PodPoll} {url : String}
    (h : RunPod.waitForPodReady podId t polls = .ok url) :
    ∃ p ∈ polls, ∃ pp ∈ p.ports, RunPod.checkPort pp = some url := by
  induction polls with
  | nil => simp [RunPod.waitForPodReady] at h
  | cons p rest ih =>
    rw [RunPod.waitForPodReady] at h
    cases hc : RunPod.scanPorts p.ports with
    | some u =>
      rw [hc] at h
      simp only [Except.ok.injEq] at h
      subst h
      obtain ⟨pp, hpp, hcp⟩ := RunPod.scanPorts_eq_some hc
      exact ⟨p, by simp, pp, hpp, hcp⟩
    | none =>
      rw [hc] at h
      obtain ⟨q, hq, rest2⟩ := ih h
      exact ⟨q, by simp [hq], rest2⟩

/-- When every poll fails, the runpod readiness wait raises `TimeoutError`. -/
theorem RunPod.waitForPodReady_timeout {podId : String} {t : Nat}
    {polls : List RunPod.PodPoll}
    (h : ∀ p ∈ polls, RunPod.scanPorts p.ports = none) :
    RunPod.waitForPodReady podId t polls = .error (RunPod.timeoutMsg podId t) := by
  induction polls with
  | nil => rfl
  | cons p rest ih =>
    rw [RunPod.waitForPodReady, h p (by simp)]
    exact ih fun q hq => h q (by simp [hq])

/-- Lemma: `startsW` holds of a list against itself followed by anything. -/
theorem startsW_append_self (n s : List Char) : startsW n (n ++ s) = true := by
  induction n with
  | nil => rfl
  | cons c cs ih => simp [startsW, ih]

/-- Lemma: `hasSub` is preserved by extending the haystack on the left. -/
theorem hasSub_cons {n hay : List Char} (c : Char) (h : hasSub n hay = true) :
    hasSub n (c :: hay) = true := by
  simp [hasSub, h]

/-- A list occurs as a substring wherever it literally appears. -/
theorem hasSub_append (n pre suf : List Char) : hasSub n (pre ++ (n ++ suf)) = true := by
  induction pre with
  | nil =>
    cases hn : n ++ suf with
    | nil =>
      have : n = [] := by
        cases n with
        | nil => rfl
        | cons a as => simp at hn
      simp [this, hasSub]
    | cons c cs =>
      have h1 : startsW n (n ++ suf) = true := startsW_append_self n suf
      rw [hn] at h1
      simp [hasSub, h1]
  | cons c cs ih => exact hasSub_cons c ih

/-- The runpod timeout message carries the pod id as a substring. -/
theorem timeoutMsg_carries_podId (podId : String) (t : Nat) :
    hasSub podId.toList (RunPod.timeoutMsg podId t).toList = true := by
  have : (RunPod.timeoutMsg podId t).toList
      = "Pod ".toList ++ (podId.toList ++ (" did not become ready in " ++ toString t ++ "s").toList) := by
    simp [RunPod.timeoutMsg, String.toList]
  rw [this]
  exact hasSub_append _ _ _

/-- Claim C3, amended: each readiness wait returns an endpoint only if at some
poll a port mapping for the well-known service port existed and the HTTP
health probe against the resulting (host, external port) answered success —
the Vast.ai wait additionally requires the polled status to be `running`,
while the RunPod wait never consults the status; a non-success or unreachable
probe is not terminal, polling continues; if no poll succeeds within the
timeout, the RunPod wait raises a `TimeoutError` carrying the pod id, while
the Vast.ai wait returns `None` and raises nothing. -/
theorem C3_readiness :
    (∀ (polls : List Vast.PollInst) (url : String),
        Vast.waitForInstanceReady polls = some url →
        ∃ p ∈ polls, p.status = "running" ∧ p.healthStatusCode = some 200 ∧
          ∃ ip port rest, p.publicIpaddr = some ip ∧
            p.apiPortInfo = some (some port :: rest) ∧ ip ≠ "" ∧ port ≠ "" ∧
            url = "http://" ++ ip ++ ":" ++ port) ∧
    (∀ (polls : List Vast.PollInst),
        (∀ p ∈ polls, Vast.checkPoll p = none) → Vast.waitForInstanceReady polls = none) ∧
    (∀ (p : Vast.PollInst) (polls : List Vast.PollInst), Vast.checkPoll p = none →
        Vast.waitForInstanceReady (p :: polls) = Vast.waitForInstanceReady polls) ∧
    (∀ (podId : String) (t : Nat) (polls : List RunPod.PodPoll) (url : String),
        RunPod.waitForPodReady podId t polls = .ok url →
        ∃ p ∈ polls, ∃ pp ∈ p.ports, pp.privatePort = 8185 ∧
          pp.healthStatusCode = some 200 ∧
          ∃ ip port, pp.ip = some ip ∧ pp.publicPort = some port ∧ ip ≠ "" ∧ port ≠ 0 ∧
            url = "http://" ++ ip ++ ":" ++ toString port) ∧
    (∀ (podId : String) (t : Nat) (polls : List RunPod.PodPoll),
        (∀ p ∈ polls, RunPod.scanPorts p.ports = none) →
        RunPod.waitForPodReady podId t polls = .error (RunPod.timeoutMsg podId t) ∧
        hasSub podId.toList (RunPod.timeoutMsg podId t).toList = true) := by
  refine ⟨?_, ?_, ?_, ?_, ?_⟩
  · intro polls url h
    obtain ⟨p, hp, hc⟩ := Vast.waitForInstanceReady_eq_some h
    obtain ⟨h1, h2, h3⟩ := Vast.checkPoll_eq_some hc
    exact ⟨p, hp, h1, h2, h3⟩
  · intro polls h
    exact Vast.waitForInstanceReady_eq_none h
  · intro p polls h
    rw [Vast.waitForInstanceReady, h]
  · intro podId t polls url h
    obtain ⟨p, hp, pp, hpp, hc⟩ := RunPod.waitForPodReady_eq_ok h
    obtain ⟨h1, h2, h3⟩ := RunPod.checkPort_eq_some hc
    exact ⟨p, hp, pp, hpp, h1, h2, h3⟩
  · intro podId t polls h
    exact ⟨RunPod.waitForPodReady_timeout h, timeoutMsg_carries_podId podId t⟩

/-- Concrete readiness traces: a failing health probe is skipped, a later
healthy poll returns the endpoint, and an all-failing trace times out with the
pod id in the message. -/
theorem C3_readiness_witness :
    Vast.waitForInstanceReady
        [⟨"running", some "1.2.3.4", some [some "100"], some 503⟩,
         ⟨"running", some "1.2.3.4", some [some "100"], some 200⟩]
      = some "http://1.2.3.4:100" ∧
    RunPod.waitForPodReady "pod-9" 300 [⟨"RUNNING", []⟩]
      = .error (RunPod.timeoutMsg "pod-9" 300) ∧
    hasSub "pod-9".toList (RunPod.timeoutMsg "pod-9" 300).toList = true := by
  refine ⟨?_, ?_, ?_⟩
  · have h := C3_readiness.2.2.1 ⟨"running", some "1.2.3.4", some [some "100"], some 503⟩
      [⟨"running", some "1.2.3.4", some [some "100"], some 200⟩] (by rfl)
    rw [h]
    rfl
  · exact (C3_readiness.2.2.2.2 "pod-9" 300 [⟨"RUNNING", []⟩]
      (by intro p hp; simp at hp; subst hp; rfl)).1
  · exact (C3_readiness.2.2.2.2 "pod-9" 300 [⟨"RUNNING", []⟩]
      (by intro p hp; simp at hp; subst hp; rfl)).2

/-- Counterexample to claim C3 as stated: the runpod readiness wait returns an
endpoint from a poll whose reported status is `EXITED`, never `running` — the
wait does not consult the instance status at all. -/
theorem C3_counterexample :
    RunPod.waitForPodReady "pod-1" 300
        [⟨"EXITED", [⟨8185, some "1.2.3.4", some 100, some 200⟩]⟩]
      = .ok "http://1.2.3.4:100" ∧
    ("EXITED" = "running") = False := by
  exact ⟨rfl, by simp⟩

/-- A terminal log flush produces a chain anchored at the current cursor. -/
theorem Vast.chainFromB_finalFlush (off : Nat) (f : List Char) :
    Vast.chainFromB off (Vast.finalFlush off f) = true := by
  unfold Vast.finalFlush
  split
  · rfl
  · rename_i hne
    simp only [Vast.logsEndpoint] at hne
    simp [Vast.chainFromB, Vast.logsEndpoint, List.isEmpty_iff, hne]

/-- The chunks emitted by any job wait form an ordered, disjoint chain anchored
at the starting cursor: offsets never decrease and no byte range overlaps a
previously delivered one. -/
theorem Vast.chainFromB_waitGo (polls : List Vast.JobPoll) :
    ∀ (off : Nat) (streaming : Bool),
      Vast.chainFromB off ((Vast.waitGo polls off streaming).emitted) = true := by
  induction polls with
  | nil => intro off streaming; rfl
  | cons p rest ih =>
    intro off streaming
    by_cases hc : p.status = "completed"
    · cases streaming with
      | false => simp [Vast.waitGo, hc, Vast.chainFromB]
      | true =>
        cases hf : p.logFile with
        | none => simp [Vast.waitGo, hc, hf, Vast.chainFromB]
        | some f =>
          simp only [Vast.waitGo, hc, hf, if_true]
          simpa using Vast.chainFromB_finalFlush off f
    · by_cases hfl : p.status = "failed"
      · cases streaming with
        | false => simp [Vast.waitGo, hc, hfl, Vast.chainFromB]
        | true =>
          cases hf : p.logFile with
          | none => simp [Vast.waitGo, hc, hfl, hf, Vast.chainFromB]
          | some f =>
            simp only [Vast.waitGo, hc, hfl, hf]
            simpa [hc, hfl] using Vast.chainFromB_finalFlush off f
      · cases streaming with
        | false => simpa [Vast.waitGo, hc, hfl] using ih off false
        | true =>
          cases hf : p.logFile with
          | none => simpa [Vast.waitGo, hc, hfl, hf] using ih off false
          | some f =>
            by_cases hemp : f.drop off = []
            · simpa [Vast.waitGo, hc, hfl, hf, Vast.logsEndpoint, hemp] using ih off true
            · have hlt : off < f.length := by
                by_contra hge
                exact hemp (List.drop_eq_nil_of_le (by omega))
              have hsum : off + (f.length - off) = f.length := by omega
              simp only [Vast.waitGo, hc, hfl, hf, Vast.logsEndpoint, hemp, if_false]
              simp [Vast.chainFromB, hc, hfl, hemp, List.isEmpty_iff, List.length_drop, hsum,
                ih f.length true]

/-- A wait running with streaming disabled never delivers any log bytes. -/
theorem Vast.waitGo_no_stream_emitted (polls : List Vast.JobPoll) :
    ∀ off, (Vast.waitGo polls off false).emitted = [] := by
  induction polls with
  | nil => intro off; rfl
  | cons p rest ih =>
    intro off
    by_cases hc : p.status = "completed"
    · simp [Vast.waitGo, hc]
    · by_cases hfl : p.status = "failed"
      · simp [Vast.waitGo, hc, hfl]
      · simp [Vast.waitGo, hc, hfl, ih]

/-- A wait running with streaming disabled displays the percentage fallback for
every remaining non-terminal poll that carries progress totals. -/
theorem Vast.waitGo_no_stream_progress (polls : List Vast.JobPoll) :
    ∀ off, (Vast.waitGo polls off false).progress = Vast.fallbackProgress polls := by
  induction polls with
  | nil => intro off; rfl
  | cons p rest ih =>
    intro off
    by_cases hc : p.status = "completed"
    · simp [Vast.waitGo, Vast.fallbackProgress, hc]
    · by_cases hfl : p.status = "failed"
      · simp [Vast.waitGo, Vast.fallbackProgress, hc, hfl]
      · simp [Vast.waitGo, Vast.fallbackProgress, hc, hfl, ih]

/-- Claim C4: during a job wait with log streaming enabled, the byte-offset
cursor is non-decreasing across the log fetches and no byte range is delivered
twice (the emitted chunks form an ordered disjoint chain from offset 0); a
failing log fetch permanently disables streaming for the remainder of the wait
— no further bytes are ever delivered — and the display falls back to the
percentage computed from `completed_segments`/`total_segments` whenever the
totals are available. -/
theorem C4_log_streaming :
    (∀ polls : List Vast.JobPoll,
        Vast.chainFromB 0 ((Vast.waitForJob polls).emitted) = true) ∧
    (∀ (p : Vast.JobPoll) (rest : List Vast.JobPoll) (off : Nat),
        p.status ≠ "completed" → p.status ≠ "failed" → p.logFile = none →
        (Vast.waitGo (p :: rest) off true).emitted = [] ∧
        (Vast.waitGo (p :: rest) off true).progress
          = Vast.progressOf p ++ Vast.fallbackProgress rest) ∧
    (∀ (polls : List Vast.JobPoll) (off : Nat),
        (Vast.waitGo polls off false).emitted = []) := by
  refine ⟨?_, ?_, ?_⟩
  · intro polls
    exact Vast.chainFromB_waitGo polls 0 true
  · intro p rest off hc hfl hf
    constructor
    · simp [Vast.waitGo, hc, hfl, hf, Vast.waitGo_no_stream_emitted]
    · simp [Vast.waitGo, hc, hfl, hf, Vast.waitGo_no_stream_progress]
  · intro polls off
    exact Vast.waitGo_no_stream_emitted polls off

/-- Concrete streaming trace: two growing log snapshots then a fetch failure;
the delivered chunks chain without overlap, and after the failure nothing more
is delivered while the percentage fallback kicks in. -/
theorem C4_log_streaming_witness :
    Vast.chainFromB 0 ((Vast.waitForJob
        [⟨"running", none, 0, 0, some "ab".toList⟩,
         ⟨"running", none, 1, 4, some "abcd".toList⟩,
         ⟨"running", none, 2, 4, none⟩,
         ⟨"running", none, 3, 4, none⟩]).emitted) = true ∧
    (Vast.waitGo [⟨"running", none, 2, 4, none⟩, ⟨"running", none, 3, 4, none⟩] 4 true).emitted
      = [] ∧
    (Vast.waitGo [⟨"running", none, 2, 4, none⟩, ⟨"running", none, 3, 4, none⟩] 4 true).progress
      = [(2, 4), (3, 4)] := by
  have h2 := C4_log_streaming.2.1 ⟨"running", none, 2, 4, none⟩
    [⟨"running", none, 3, 4, none⟩] 4 (by decide) (by decide) rfl
  refine ⟨C4_log_streaming.1 _, h2.1, ?_⟩
  rw [h2.2]
  rfl

/-- Claim C5: with streaming enabled, a polled `failed` status performs one
final log flush from the current cursor and then raises the job-failure error
carrying the remote-reported error message; a polled `completed` status
performs one final log flush and then returns the final status.  The runpod
wait (which never streams) likewise raises on `failed` with the remote error
and returns the final status on `completed`. -/
theorem C5_terminal_flush :
    (∀ (p : Vast.JobPoll) (rest : List Vast.JobPoll) (off : Nat) (f : List Char),
        p.status = "failed" → p.logFile = some f →
        (Vast.waitGo (p :: rest) off true).result = .jobFailed p.error ∧
        (Vast.waitGo (p :: rest) off true).emitted = Vast.finalFlush off f) ∧
    (∀ (p : Vast.JobPoll) (rest : List Vast.JobPoll) (off : Nat) (f : List Char),
        p.status = "completed" → p.logFile = some f →
        (Vast.waitGo (p :: rest) off true).result = .completed p ∧
        (Vast.waitGo (p :: rest) off true).emitted = Vast.finalFlush off f) ∧
    (∀ (p : RunPod.RJobPoll) (rest : List RunPod.RJobPoll),
        p.status = "failed" → RunPod.waitForJob (p :: rest) = .jobFailed p.error) ∧
    (∀ (p : RunPod.RJobPoll) (rest : List RunPod.RJobPoll),
        p.status = "completed" → RunPod.waitForJob (p :: rest) = .completed p) := by
  refine ⟨?_, ?_, ?_, ?_⟩
  · intro p rest off f hfl hf
    constructor <;> simp [Vast.waitGo, hfl, hf]
  · intro p rest off f hc hf
    constructor <;> simp [Vast.waitGo, hc, hf]
  · intro p rest hfl
    simp [RunPod.waitForJob, hfl]
  · intro p rest hc
    simp [RunPod.waitForJob, hc]

/-- Concrete terminal polls: a failed job flushes the pending log tail and
raises with the remote error; a completed job flushes and returns. -/
theorem C5_terminal_flush_witness :
    (Vast.waitGo [⟨"failed", some "oom", 0, 0, some "tail".toList⟩] 2 true).result
      = .jobFailed (some "oom") ∧
    (Vast.waitGo [⟨"failed", some "oom", 0, 0, some "tail".toList⟩] 2 true).emitted
      = [(2, "il".toList)] ∧
    (Vast.waitGo [⟨"completed", none, 4, 4, some "done".toList⟩] 4 true).result
      = .completed ⟨"completed", none, 4, 4, some "done".toList⟩ ∧
    RunPod.waitForJob [⟨"failed", some "boom"⟩] = .jobFailed (some "boom") := by
  have h1 := C5_terminal_flush.1 ⟨"failed", some "oom", 0, 0, some "tail".toList⟩ [] 2
    "tail".toList rfl rfl
  have h2 := C5_terminal_flush.2.1 ⟨"completed", none, 4, 4, some "done".toList⟩ [] 4
    "done".toList rfl rfl
  have h3 := C5_terminal_flush.2.2.1 ⟨"failed", some "boom"⟩ [] rfl
  exact ⟨h1.1, by rw [h1.2]; rfl, h2.1, h3⟩

/-- Concrete requests: a fresh id with models ready creates a pending record;
the same id again answers 409 leaving the table unchanged; a fresh id with
models not ready answers 503 while the health endpoint still answers 200. -/
theorem C10_create_job_witness :
    Server.createJob true [] (some "j1") "gen0" "http://in"
      = ([("j1", ⟨"pending", "http://in", none⟩)], .ok ("j1", "pending")) ∧
    Server.createJob true [("j1", ⟨"pending", "http://in", none⟩)] (some "j1") "gen0" "http://in"
      = ([("j1", ⟨"pending", "http://in", none⟩)], .error 409) ∧
    Server.createJob false [] (some "j2") "gen0" "http://in" = ([], .error 503) ∧
    Server.healthCheck false = 200 := by
  refine ⟨?_, ?_, ?_, C10_create_job.2.2.2.2.2⟩
  · exact C10_create_job.2.2.2.1 [] (some "j1") "gen0" "http://in" (by rfl)
  · exact C10_create_job.2.1 true [("j1", ⟨"pending", "http://in", none⟩)]
      (some "j1") "gen0" "http://in" (by rfl)
  · exact C10_create_job.2.2.1 [] (some "j2") "gen0" "http://in" (by rfl)

end FfmpegDemucs
